import Mathlib

/-!
Shallow embedding of the chat-app backend's real-time messaging and
presence engine: the socket handlers (messageHandlers, presenceHandlers,
socketManager) and the HTTP controllers (sendMessage, markAsRead,
leaveGroup).  Mongoose documents become Lean structures; the durable
store becomes explicit state passing; socket.io emissions become an
explicit list of emitted events with their target socket ids.
-/

namespace ChatApp

/-- A user's durable record (models/User.js): only the fields the
presence engine reads or writes. -/
structure UserRec where
  username : String
  status : String
  lastSeen : Nat
  friends : List String
  deriving Repr, DecidableEq

/-- A conversation document (models/Conversation.js).  `unreadCount` is a
Mongoose Map from user-id to number; absent keys read as `undefined`,
which the code defaults with `|| 0`.  `lastMessage` stores a message id. -/
structure Conversation where
  participants : List String
  lastMessage : Option Nat
  unreadCount : String → Option Nat
  isActive : Bool

/-- A group document (models/Group.js is referenced by the controllers;
fields are exactly those the controllers read and write). -/
structure Group where
  name : String
  creator : String
  members : List String
  admins : List String
  lastMessage : Option Nat
  unreadCount : String → Option Nat
  isActive : Bool

/-- A message document (models/Message.js). -/
structure Msg where
  id : Nat
  sender : String
  content : String
  conversation : Option String
  group : Option String
  attachments : List String
  readBy : List String
  isDeleted : Bool
  deriving Repr, DecidableEq

/-- A notification document (models/Notification.js): the fields written
by Notification.create in the send paths. -/
structure Notif where
  recipient : String
  sender : String
  type : String
  title : String
  content : String
  relatedId : Nat
  deriving Repr, DecidableEq

/-- The durable store: documents reachable by id, plus the append-only
message and notification collections.  Fresh message ids are assigned by
position in the `messages` list. -/
structure Store where
  users : String → Option UserRec
  conversations : String → Option Conversation
  groups : String → Option Group
  messages : List Msg
  notifications : List Notif

/-- Point update of a string-keyed map (Mongoose `Map.set` /
`findByIdAndUpdate`). -/
def setMap {α : Type} (m : String → Option α) (k : String) (v : Option α) :
    String → Option α :=
  fun x => if x = k then v else m x

/-- A live socket connection: its socket id, the authenticated user id,
and the set of socket.io rooms it has joined (at connect, each socket
joins its own user-id room plus `conversation:<id>` / `group:<id>` rooms). -/
structure Conn where
  sid : String
  uid : String
  rooms : List String
  deriving Repr, DecidableEq

/-- Model of `io.to(room).emit(...)`: every live connection that joined the room,
including the emitting user's own connections. -/
def ioTo (conns : List Conn) (room : String) : List Conn :=
  conns.filter (fun c => room ∈ c.rooms)

/-- Model of `socket.to(room).emit(...)`: every live connection that joined the
room except the emitting socket itself (only that one socket id is
excluded, not all of the user's connections). -/
def socketTo (conns : List Conn) (selfSid room : String) : List Conn :=
  conns.filter (fun c => room ∈ c.rooms && c.sid ≠ selfSid)

/-- Payload of an emitted socket event, restricted to the fields the
claims are about. -/
inductive Payload
  | errMsg (message : String)
  | newMessage (msgId : Nat) (roomRef : String)
  | readRcpt (reader : String) (messageIds : List Nat) (roomRef : String)
  | typing (uid : String) (username : String) (isTyping : Bool) (roomRef : String)
  | newNotification (recipient : String)
  | statusUpdated (status : String)
  | userStatus (uid : String) (status : String) (lastSeen : Nat)
  deriving Repr, DecidableEq

/-- One emitted socket event: its event name, the socket ids it is
delivered to, and its payload. -/
structure Emit where
  event : String
  targets : List String
  payload : Payload
  deriving Repr, DecidableEq

/-- JavaScript falsiness of an optional string field (`!x` is true for a
missing field and for the empty string). -/
def isBlank : Option String → Bool
  | none => true
  | some s => s = ""

/-- An HTTP ApiError: message and status code (middlewares/errorHandler). -/
structure ApiErr where
  message : String
  statusCode : Nat
  deriving Repr, DecidableEq

/-!  Read-state reconciliation (controllers/messageController.js markAsRead
and the message:read socket handler share the same updateMany call). -/

/-- Model of `Message.updateMany({_id: {$in: messageIds}, readBy: {$ne: reader}},
{$addToSet: {readBy: reader}})`: every message whose id is in
`messageIds` and whose `readBy` does not contain the reader gets the
reader appended to `readBy`. -/
def markReadUpdate (reader : String) (messageIds : List Nat)
    (msgs : List Msg) : List Msg :=
  msgs.map (fun m =>
    if m.id ∈ messageIds ∧ reader ∉ m.readBy then
      { m with readBy := m.readBy ++ [reader] }
    else m)

/-- markAsRead controller: rejects a missing / non-array `messageIds`
with a 400 ApiError, otherwise runs the updateMany and answers success. -/
def markAsRead (reader : String) (messageIds : Option (List Nat))
    (msgs : List Msg) : Except ApiErr (List Msg) :=
  match messageIds with
  | none => .error ⟨"Please provide an array of message IDs", 400⟩
  | some ids => .ok (markReadUpdate reader ids msgs)

/-!  Presence handlers (sockets/presenceHandlers.js). -/

/-- presence:ping handler: `User.findByIdAndUpdate(socket.user.id,
{ lastSeen: new Date() })` — update only `lastSeen` if the user exists;
no status change and no emitted event. -/
def presencePing (selfUid : String) (now : Nat)
    (users : String → Option UserRec) :
    (String → Option UserRec) × List Emit :=
  (match users selfUid with
   | none => users
   | some u => setMap users selfUid (some { u with lastSeen := now }),
   [])

/-- status:change handler: reject an invalid status with one error
event; otherwise update status and lastSeen, emit user:status to each
friend's user-id room, then status:updated back to the requester. -/
def statusChange (conns : List Conn) (selfSid selfUid : String)
    (status : String) (now : Nat) (users : String → Option UserRec) :
    (String → Option UserRec) × List Emit :=
  if status ∉ ["online", "offline", "away", "busy"] then
    (users, [⟨"error", [selfSid], .errMsg "Invalid status"⟩])
  else
    let users' := match users selfUid with
      | none => users
      | some u => setMap users selfUid
          (some { u with status := status, lastSeen := now })
    let friendEmits := match users' selfUid with
      | none => []
      | some u => u.friends.map (fun f =>
          Emit.mk "user:status" ((ioTo conns f).map (·.sid))
            (.userStatus selfUid status now))
    (users', friendEmits ++ [⟨"status:updated", [selfSid], .statusUpdated status⟩])

/-!  Typing relay (messageHandlers typing:start / typing:stop).  The
source does no durable-store access at all in these handlers; the store
argument is returned untouched to make that frame condition a theorem. -/

/-- typing:start handler: `socket.to(room).emit('typing:update', {user,
isTyping: true, ...})` for the conversation room if `conversationId` is
given, else for the group room if `groupId` is; nothing otherwise. -/
def typingStart (conns : List Conn) (selfSid selfUid selfUname : String)
    (conversationId groupId : Option String) (st : Store) :
    Store × List Emit :=
  if !(isBlank conversationId) then
    (st, [⟨"typing:update",
      (socketTo conns selfSid ("conversation:" ++ conversationId.getD "")).map (·.sid),
      .typing selfUid selfUname true (conversationId.getD "")⟩])
  else if !(isBlank groupId) then
    (st, [⟨"typing:update",
      (socketTo conns selfSid ("group:" ++ groupId.getD "")).map (·.sid),
      .typing selfUid selfUname true (groupId.getD "")⟩])
  else (st, [])

/-- typing:stop handler: same broadcast with `isTyping: false`. -/
def typingStop (conns : List Conn) (selfSid selfUid selfUname : String)
    (conversationId groupId : Option String) (st : Store) :
    Store × List Emit :=
  if !(isBlank conversationId) then
    (st, [⟨"typing:update",
      (socketTo conns selfSid ("conversation:" ++ conversationId.getD "")).map (·.sid),
      .typing selfUid selfUname false (conversationId.getD "")⟩])
  else if !(isBlank groupId) then
    (st, [⟨"typing:update",
      (socketTo conns selfSid ("group:" ++ groupId.getD "")).map (·.sid),
      .typing selfUid selfUname false (groupId.getD "")⟩])
  else (st, [])

/-!  message:read socket handler. -/

/-- message:read handler: silently return (no event at all) when
`messageIds` is missing, not an array or empty; otherwise run the
readBy updateMany, then — when a conversation (resp. group) id is given —
zero that reader's unreadCount entry and emit the read receipt with
`io.to(room)` (all subscribed connections, the reader's own included). -/
def messageRead (conns : List Conn) (selfUid : String)
    (messageIds : Option (List Nat)) (conversationId groupId : Option String)
    (st : Store) : Store × List Emit :=
  match messageIds with
  | none => (st, [])
  | some ids =>
    if ids = [] then (st, [])
    else
      let st1 := { st with messages := markReadUpdate selfUid ids st.messages }
      if !(isBlank conversationId) then
        let cid := conversationId.getD ""
        let convs' :=
          match st1.conversations cid with
          | none => st1.conversations
          | some conv => setMap st1.conversations cid
              (some { conv with unreadCount := setMap conv.unreadCount selfUid (some 0) })
        ({ st1 with conversations := convs' },
         [⟨"message:read", (ioTo conns ("conversation:" ++ cid)).map (·.sid),
           .readRcpt selfUid ids cid⟩])
      else if !(isBlank groupId) then
        let gid := groupId.getD ""
        let groups' :=
          match st1.groups gid with
          | none => st1.groups
          | some g => setMap st1.groups gid
              (some { g with unreadCount := setMap g.unreadCount selfUid (some 0) })
        ({ st1 with groups := groups' },
         [⟨"message:read", (ioTo conns ("group:" ++ gid)).map (·.sid),
           .readRcpt selfUid ids gid⟩])
      else (st1, [])

/-!  Message fan-out: the sendMessage controller and the message:private
socket handler. -/

/-- Model of `recipients.forEach(r => unreadCount.set(r, (unreadCount.get(r) || 0) + 1))`,
applied left to right. -/
def incUnread : (String → Option Nat) → List String → (String → Option Nat)
  | uc, [] => uc
  | uc, r :: rest => incUnread (setMap uc r (some ((uc r).getD 0 + 1))) rest

/-- The controller's `for (const recipient of recipients) { await
Notification.create(...) }` loop.  `notifFail r = true` models the
durable create throwing for that recipient: the loop stops there (the
thrown error propagates) and the Bool result records whether the loop
ran to completion. -/
def notifLoop (mk : String → Notif) (notifFail : String → Bool) :
    List String → Store → Store × Bool
  | [], st => (st, true)
  | r :: rest, st =>
    if notifFail r then (st, false)
    else notifLoop mk notifFail rest
      { st with notifications := st.notifications ++ [mk r] }

/-- sendMessage controller (controllers/messageController.js).  Returns
the store as left at the point the request finished or threw, and the
HTTP outcome: `.ok msgId` for the 201 response carrying the created
message, `.error` for an ApiError response.  A store-level throw whose
message is not fixed by the source (a failed Notification.create, a
vanished re-fetched document) surfaces through the errorHandler as a
500 response, modelled as ApiErr "Internal Server Error" 500. -/
def sendMessage (userId : String) (content : String)
    (conversationId groupId : Option String) (attachments : Option (List String))
    (notifFail : String → Bool) (st : Store) : Store × Except ApiErr Nat :=
  if (!(isBlank conversationId) && !(isBlank groupId)) ||
     (isBlank conversationId && isBlank groupId) then
    (st, .error ⟨"Please provide either a conversation ID or a group ID", 400⟩)
  else if !(isBlank conversationId) then
    let cid := conversationId.getD ""
    match st.conversations cid with
    | none => (st, .error ⟨"Conversation not found", 404⟩)
    | some conv =>
      if userId ∈ conv.participants then
        let recipients := conv.participants.filter (· ≠ userId)
        let msgId := st.messages.length
        let msg : Msg :=
          ⟨msgId, userId, content, some cid, none, attachments.getD [], [userId], false⟩
        let st1 := { st with messages := st.messages ++ [msg] }
        match st1.conversations cid with
        | none => (st1, .error ⟨"Internal Server Error", 500⟩)
        | some conv1 =>
          let conv2 := { conv1 with
            lastMessage := some msgId,
            unreadCount := incUnread conv1.unreadCount recipients }
          let st2 := { st1 with conversations := setMap st1.conversations cid (some conv2) }
          match st2.users userId with
          | none => (st2, .error ⟨"Internal Server Error", 500⟩)
          | some sender =>
            let res := notifLoop (fun r =>
                ⟨r, userId, "message", "New Message",
                 sender.username ++ " sent you a message", msgId⟩)
              notifFail recipients st2
            if res.2 then (res.1, .ok msgId)
            else (res.1, .error ⟨"Internal Server Error", 500⟩)
      else (st, .error ⟨"You are not part of this conversation", 403⟩)
  else
    let gid := groupId.getD ""
    match st.groups gid with
    | none => (st, .error ⟨"Group not found", 404⟩)
    | some grp =>
      if userId ∈ grp.members then
        let recipients := grp.members.filter (· ≠ userId)
        let msgId := st.messages.length
        let msg : Msg :=
          ⟨msgId, userId, content, none, some gid, attachments.getD [], [userId], false⟩
        let st1 := { st with messages := st.messages ++ [msg] }
        match st1.groups gid with
        | none => (st1, .error ⟨"Internal Server Error", 500⟩)
        | some grp1 =>
          let grp2 := { grp1 with
            lastMessage := some msgId,
            unreadCount := incUnread grp1.unreadCount recipients }
          let st2 := { st1 with groups := setMap st1.groups gid (some grp2) }
          match st2.users userId with
          | none => (st2, .error ⟨"Internal Server Error", 500⟩)
          | some sender =>
            let res := notifLoop (fun r =>
                ⟨r, userId, "message", "New Message in " ++ grp1.name,
                 sender.username ++ " sent a message in " ++ grp1.name, msgId⟩)
              notifFail recipients st2
            if res.2 then (res.1, .ok msgId)
            else (res.1, .error ⟨"Internal Server Error", 500⟩)
      else (st, .error ⟨"You are not a member of this group", 403⟩)

/-- The message:private handler's notification loop: each successful
Notification.create is followed by a notification:new emit to the
recipient's user-id room; a failing create aborts the loop (the error
is handled by the surrounding catch). -/
def notifEmitLoop (conns : List Conn) (mk : String → Notif)
    (notifFail : String → Bool) : List String → Store → Store × List Emit × Bool
  | [], st => (st, [], true)
  | r :: rest, st =>
    if notifFail r then (st, [], false)
    else
      let st1 := { st with notifications := st.notifications ++ [mk r] }
      let e : Emit := ⟨"notification:new", (ioTo conns r).map (·.sid), .newNotification r⟩
      let res := notifEmitLoop conns mk notifFail rest st1
      (res.1, e :: res.2.1, res.2.2)

/-- message:private socket handler: validation / not-found /
authorization failures emit exactly one error event to the emitting
socket; on success the message is persisted, the conversation's
lastMessage and unread counters updated, message:new emitted with
`io.to` to the conversation room, then notifications are created and
pushed; any throw in the try block is answered by the catch with one
"Failed to send message" error to the emitting socket. -/
def messagePrivate (conns : List Conn) (selfSid selfUid selfUname : String)
    (conversationId content : Option String) (attachments : Option (List String))
    (notifFail : String → Bool) (st : Store) : Store × List Emit :=
  if isBlank conversationId || isBlank content then
    (st, [⟨"error", [selfSid], .errMsg "Conversation ID and content are required"⟩])
  else
    let cid := conversationId.getD ""
    match st.conversations cid with
    | none => (st, [⟨"error", [selfSid], .errMsg "Conversation not found"⟩])
    | some conv =>
      if selfUid ∈ conv.participants then
        let msgId := st.messages.length
        let msg : Msg :=
          ⟨msgId, selfUid, content.getD "", some cid, none, attachments.getD [], [selfUid], false⟩
        let st1 := { st with messages := st.messages ++ [msg] }
        let recipients := conv.participants.filter (· ≠ selfUid)
        let conv' := { conv with
          lastMessage := some msgId,
          unreadCount := incUnread conv.unreadCount recipients }
        let st2 := { st1 with conversations := setMap st1.conversations cid (some conv') }
        let msgEmit : Emit :=
          ⟨"message:new", (ioTo conns ("conversation:" ++ cid)).map (·.sid),
           .newMessage msgId cid⟩
        let res := notifEmitLoop conns (fun r =>
            ⟨r, selfUid, "message", "New Message",
             selfUname ++ " sent you a message", msgId⟩)
          notifFail recipients st2
        if res.2.2 then (res.1, msgEmit :: res.2.1)
        else (res.1, msgEmit :: res.2.1 ++
          [⟨"error", [selfSid], .errMsg "Failed to send message"⟩])
      else
        (st, [⟨"error", [selfSid],
          .errMsg "Not authorized to send messages to this conversation"⟩])

/-!  leaveGroup controller (groupController.js). -/

/-- The document mutation leaveGroup performs on a group whose member
the leaver is: promote a replacement admin and transfer `creator` only
when the leaver is the creator AND the sole admin AND other members
remain; then drop the leaver from members and admins; deactivate an
emptied group.  (When `members.find` comes back empty — only possible
with a duplicated member list — the JS would push `undefined`; that
unreachable-in-practice arm keeps the group unchanged here.) -/
def leaveGroupDoc (userId : String) (g : Group) : Group :=
  let isCreator := g.creator = userId
  let g1 :=
    if isCreator then
      if (g.admins.length = 1 ∧ g.admins.headD "" = userId) ∧ g.members.length > 1 then
        match g.members.find? (fun m => m ≠ userId) with
        | some newAdminId =>
          { g with admins := g.admins ++ [newAdminId], creator := newAdminId }
        | none => g
      else g
    else g
  let g2 := { g1 with members := g1.members.filter (· ≠ userId) }
  let g3 :=
    if userId ∈ g2.admins then
      { g2 with admins := g2.admins.filter (· ≠ userId) }
    else g2
  if g3.members.length = 0 then { g3 with isActive := false } else g3

/-- leaveGroup controller: 404 when the group does not exist, 400 when
the requester is not a member, otherwise apply `leaveGroupDoc` and save. -/
def leaveGroup (userId gid : String) (st : Store) : Store × Except ApiErr Unit :=
  match st.groups gid with
  | none => (st, .error ⟨"Group not found", 404⟩)
  | some g =>
    if userId ∈ g.members then
      ({ st with groups := setMap st.groups gid (some (leaveGroupDoc userId g)) },
       .ok ())
    else (st, .error ⟨"You are not a member of this group", 400⟩)

/-!  socketManager (the connection / disconnect handlers and the
userSockets map). -/

/-- The in-memory `userSockets : Map<userId, Set<socketId>>`. -/
def UserSockets : Type := String → Option (List String)

/-- Model of `Set.add`: append if not already present. -/
def addSock (s : String) (l : List String) : List String :=
  if s ∈ l then l else l ++ [s]

/-- Connection handler's map bookkeeping: create an empty set for a
first-time key, then add the socket id. -/
def connectSock (uid sid : String) (m : UserSockets) : UserSockets :=
  setMap m uid (some (addSock sid ((m uid).getD [])))

/-- Disconnect handler's map bookkeeping: remove the socket id; when the
set becomes empty, delete the key.  The Bool is true exactly when the
code enters the `size === 0` branch — the branch that performs the
durable offline write and the offline broadcast. -/
def disconnectSock (uid sid : String) (m : UserSockets) : UserSockets × Bool :=
  match m uid with
  | none => (m, false)
  | some l =>
    let l' := l.erase sid
    if l' = [] then (setMap m uid none, true)
    else (setMap m uid (some l'), false)

/-- Full disconnect handler: the durable status write to offline and the
user:status broadcast to the friends snapshot happen only inside the
emptied-set branch reported by `disconnectSock`. -/
def disconnectHandler (conns : List Conn) (uid sid : String) (now : Nat)
    (m : UserSockets) (users : String → Option UserRec) (friends : List String) :
    UserSockets × (String → Option UserRec) × List Emit :=
  let res := disconnectSock uid sid m
  if res.2 then
    let users' :=
      match users uid with
      | none => users
      | some u => setMap users uid (some { u with status := "offline", lastSeen := now })
    (res.1, users',
     friends.map (fun f =>
       ⟨"user:status", (ioTo conns f).map (·.sid), .userStatus uid "offline" now⟩))
  else (res.1, users, [])

/-- One connection-registry event: a socket of user `uid` is admitted or
disconnects. -/
inductive SockOp
  | connect (uid sid : String)
  | disconnect (uid sid : String)
  deriving Repr, DecidableEq

/-- Replay a sequence of connection events against the userSockets map. -/
def applyOps : List SockOp → UserSockets → UserSockets
  | [], m => m
  | .connect u s :: rest, m => applyOps rest (connectSock u s m)
  | .disconnect u s :: rest, m => applyOps rest (disconnectSock u s m).1

/-- Ground truth, per user: the set of that user's currently live
sockets implied by the event sequence alone (same add / erase
semantics, no map bookkeeping). -/
def liveStep : SockOp → String → List String → List String
  | .connect u s, v, l => if v = u then addSock s l else l
  | .disconnect u s, v, l => if v = u then l.erase s else l

/-- Left-to-right accumulation of `liveStep` from a given start. -/
def liveSocketsFrom : List SockOp → (String → List String) → String → List String
  | [], f => f
  | op :: rest, f => liveSocketsFrom rest (fun v => liveStep op v (f v))

/-- A user's live sockets after an event sequence from the empty state. -/
def liveSockets (ops : List SockOp) : String → List String :=
  liveSocketsFrom ops (fun _ => [])

/-- The empty userSockets map. -/
def emptySockets : UserSockets := fun _ => none

/-!  Helper lemmas. -/

/-- Pointwise value of the unread-increment loop over a duplicate-free
recipient list. -/
lemma incUnread_apply (l : List String) (uc : String → Option Nat)
    (hl : l.Nodup) (r : String) :
    incUnread uc l r = if r ∈ l then some ((uc r).getD 0 + 1) else uc r := by
  induction l generalizing uc with
  | nil => simp [incUnread]
  | cons a rest ih =>
    rcases List.nodup_cons.mp hl with ⟨ha, hrest⟩
    rw [incUnread, ih _ hrest]
    by_cases hra : r = a
    · subst hra
      simp [setMap, ha]
    · simp [setMap, hra, List.mem_cons]

/-- When no Notification.create fails, the notification loop appends
one record per recipient and completes. -/
lemma notifLoop_eq (mk : String → Notif) (nf : String → Bool)
    (l : List String) (st : Store) (h : ∀ r ∈ l, nf r = false) :
    notifLoop mk nf l st =
      ({ st with notifications := st.notifications ++ l.map mk }, true) := by
  induction l generalizing st with
  | nil => simp [notifLoop]
  | cons a rest ih =>
    rw [notifLoop]
    rw [h a (List.mem_cons_self a rest)]
    simp only [Bool.false_eq_true, if_false]
    rw [ih _ (fun r hr => h r (List.mem_cons_of_mem a hr))]
    simp [List.append_assoc]

/-- If some recipient's Notification.create fails, the loop does not
complete. -/
lemma notifLoop_aborts (mk : String → Notif) (nf : String → Bool)
    (l : List String) (st : Store) (h : ∃ r ∈ l, nf r = true) :
    (notifLoop mk nf l st).2 = false := by
  induction l generalizing st with
  | nil => simp at h
  | cons a rest ih =>
    rw [notifLoop]
    by_cases hfa : nf a = true
    · simp [hfa]
    · rcases h with ⟨r, hr, hfr⟩
      rcases List.mem_cons.mp hr with rfl | hrrest
      · exact absurd hfr hfa
      · simp only [hfa, if_false]
        exact ih _ ⟨r, hrrest, hfr⟩

/-- The notification loop touches only the notifications collection. -/
lemma notifLoop_frame (mk : String → Notif) (nf : String → Bool)
    (l : List String) (st : Store) :
    (notifLoop mk nf l st).1.messages = st.messages ∧
    (notifLoop mk nf l st).1.conversations = st.conversations ∧
    (notifLoop mk nf l st).1.groups = st.groups ∧
    (notifLoop mk nf l st).1.users = st.users := by
  induction l generalizing st with
  | nil => simp [notifLoop]
  | cons a rest ih =>
    rw [notifLoop]
    by_cases hfa : nf a = true
    · simp [hfa]
    · simp only [hfa, if_false]
      exact ih _

/-- With pairwise-distinct socket ids, a connection's socket id appears
among the mapped sids of a filtered connection list exactly when the
connection satisfies the filter. -/
lemma mem_filterMap_sids (conns : List Conn)
    (hns : (conns.map Conn.sid).Nodup) (p : Conn → Bool) (c : Conn)
    (hc : c ∈ conns) :
    c.sid ∈ (conns.filter p).map Conn.sid ↔ p c = true := by
  constructor
  · intro h
    rcases List.mem_map.mp h with ⟨c', hc', hsid⟩
    rcases List.mem_filter.mp hc' with ⟨hc'mem, hp⟩
    have hcc : c' = c := List.inj_on_of_nodup_map hns hc'mem hc hsid
    rwa [hcc] at hp
  · intro hp
    exact List.mem_map.mpr ⟨c, List.mem_filter.mpr ⟨hc, hp⟩, rfl⟩

/-- Membership in the `io.to(room)` delivery set: subscription to the room is
the only criterion. -/
lemma mem_ioTo_sids (conns : List Conn) (hns : (conns.map Conn.sid).Nodup)
    (room : String) (c : Conn) (hc : c ∈ conns) :
    c.sid ∈ (ioTo conns room).map Conn.sid ↔ room ∈ c.rooms := by
  unfold ioTo
  rw [mem_filterMap_sids conns hns _ c hc]
  simp

/-- Membership in the `socket.to(room)` delivery set: subscription to the room
plus not being the emitting socket itself. -/
lemma mem_socketTo_sids (conns : List Conn)
    (hns : (conns.map Conn.sid).Nodup) (selfSid room : String) (c : Conn)
    (hc : c ∈ conns) :
    c.sid ∈ (socketTo conns selfSid room).map Conn.sid ↔
      (room ∈ c.rooms ∧ c.sid ≠ selfSid) := by
  unfold socketTo
  rw [mem_filterMap_sids conns hns _ c hc]
  simp

/-!  Theorems settling the claims. -/

/-- Claim C2: markRead is idempotent — running the readBy updateMany a
second time with the same reader and message id set changes nothing,
and the second markAsRead call answers success, never an error. -/
theorem markRead_idempotent :
    ∀ (reader : String) (ids : List Nat) (msgs : List Msg),
      markReadUpdate reader ids (markReadUpdate reader ids msgs) =
        markReadUpdate reader ids msgs ∧
      markAsRead reader (some ids) (markReadUpdate reader ids msgs) =
        Except.ok (markReadUpdate reader ids msgs) := by
  intro reader ids msgs
  have key : markReadUpdate reader ids (markReadUpdate reader ids msgs) =
      markReadUpdate reader ids msgs := by
    unfold markReadUpdate
    rw [List.map_map]
    refine List.map_congr_left ?_
    intro m _
    by_cases h : m.id ∈ ids ∧ reader ∉ m.readBy
    · simp only [Function.comp_apply, if_pos h]
      rw [if_neg]
      intro hc
      exact hc.2 (List.mem_append.mpr (Or.inr (List.mem_singleton.mpr rfl)))
    · simp only [Function.comp_apply, if_neg h]
  exact ⟨key, by rw [markAsRead, key]⟩

/-- Claim C9: a presence-ping updates only the pinging user's lastSeen:
every user's status (and username and friends) is unchanged, other
users' records are untouched, no event is emitted, and the pinging
user's lastSeen becomes the ping time when their record exists. -/
theorem presencePing_only_lastSeen :
    ∀ (uid : String) (now : Nat) (users : String → Option UserRec),
      (presencePing uid now users).2 = [] ∧
      (∀ v, ((presencePing uid now users).1 v).map UserRec.status =
        (users v).map UserRec.status) ∧
      (∀ v, ((presencePing uid now users).1 v).map UserRec.username =
        (users v).map UserRec.username) ∧
      (∀ v, ((presencePing uid now users).1 v).map UserRec.friends =
        (users v).map UserRec.friends) ∧
      (∀ v, v ≠ uid → (presencePing uid now users).1 v = users v) ∧
      ((users uid).isSome →
        ((presencePing uid now users).1 uid).map UserRec.lastSeen = some now) := by
  intro uid now users
  unfold presencePing
  cases h : users uid with
  | none => simp
  | some u =>
    refine ⟨rfl, ?_, ?_, ?_, ?_, ?_⟩
    · intro v
      by_cases hv : v = uid
      · subst hv; simp [setMap, h]
      · simp [setMap, hv]
    · intro v
      by_cases hv : v = uid
      · subst hv; simp [setMap, h]
      · simp [setMap, hv]
    · intro v
      by_cases hv : v = uid
      · subst hv; simp [setMap, h]
      · simp [setMap, hv]
    · intro v hv
      simp [setMap, hv]
    · intro _
      simp [setMap]

/-- Concrete user table used to instantiate the presence-ping theorem. -/
def usersW : String → Option UserRec :=
  fun x => if x = "A" then some ⟨"alice", "online", 0, ["B"]⟩ else none

/-- Witness for C9 at a concrete ping. -/
theorem presencePing_only_lastSeen_witness :
    (presencePing "A" 5 usersW).2 = [] ∧
    (presencePing "A" 5 usersW).1 "B" = usersW "B" ∧
    ((presencePing "A" 5 usersW).1 "A").map UserRec.lastSeen = some 5 := by
  have h := presencePing_only_lastSeen "A" 5 usersW
  exact ⟨h.1, h.2.2.2.2.1 "B" (by decide), h.2.2.2.2.2 (by decide)⟩

/-- Two live connections of user A (sockets s1, s2) and one of user B
(socket s3), all subscribed to conversation c1's room. -/
def connsC8 : List Conn :=
  [⟨"s1", "A", ["A", "conversation:c1"]⟩,
   ⟨"s2", "A", ["A", "conversation:c1"]⟩,
   ⟨"s3", "B", ["B", "conversation:c1"]⟩]

/-- An empty store for the handlers that take one. -/
def stEmpty : Store :=
  ⟨fun _ => none, fun _ => none, fun _ => none, [], []⟩

/-- Counterexample to C8: user A types from socket s1 while also holding
socket s2; the typing-update reaches s2 — a connection of the sender —
so the sender's own connections are not all excluded (only the emitting
socket is). -/
theorem typing_selfEcho_counterexample :
    ((typingStart connsC8 "s1" "A" "alice" (some "c1") none stEmpty).2.map
      Emit.targets) = [["s2", "s3"]] ∧
    connsC8.get? 1 = some ⟨"s2", "A", ["A", "conversation:c1"]⟩ := by
  constructor
  · rfl
  · rfl

/-- Claim C8 (amended): typing:start / typing:stop broadcast the typing
payload to every live connection subscribed to the room except the
emitting socket itself — the sender's other connections do receive it —
persist nothing durably (the store is returned untouched, so no
notification records are created) and emit exactly one event. -/
theorem typing_excludes_emitting_socket :
    ∀ (conns : List Conn) (selfSid selfUid selfUname cid : String)
      (st : Store),
      (conns.map Conn.sid).Nodup →
      cid ≠ "" →
      ((typingStart conns selfSid selfUid selfUname (some cid) none st).1 = st ∧
       ∃ e, (typingStart conns selfSid selfUid selfUname (some cid) none st).2 = [e] ∧
         e.event = "typing:update" ∧
         e.payload = .typing selfUid selfUname true cid ∧
         (∀ c ∈ conns, c.sid ∈ e.targets ↔
           (("conversation:" ++ cid) ∈ c.rooms ∧ c.sid ≠ selfSid))) ∧
      ((typingStop conns selfSid selfUid selfUname (some cid) none st).1 = st ∧
       ∃ e, (typingStop conns selfSid selfUid selfUname (some cid) none st).2 = [e] ∧
         e.event = "typing:update" ∧
         e.payload = .typing selfUid selfUname false cid ∧
         (∀ c ∈ conns, c.sid ∈ e.targets ↔
           (("conversation:" ++ cid) ∈ c.rooms ∧ c.sid ≠ selfSid))) := by
  intro conns selfSid selfUid selfUname cid st hns hcid
  have hblank : isBlank (some cid) = false := by
    simp [isBlank, hcid]
  constructor
  · rw [typingStart]
    rw [hblank]
    simp only [Bool.not_false, if_true, Option.getD_some]
    refine ⟨trivial, ⟨_, rfl, rfl, rfl, ?_⟩⟩
    intro c hc
    exact mem_socketTo_sids conns hns selfSid _ c hc
  · rw [typingStop]
    rw [hblank]
    simp only [Bool.not_false, if_true, Option.getD_some]
    refine ⟨trivial, ⟨_, rfl, rfl, rfl, ?_⟩⟩
    intro c hc
    exact mem_socketTo_sids conns hns selfSid _ c hc

/-- Witness for the amended C8 at the concrete connection list. -/
theorem typing_excludes_emitting_socket_witness :
    (connsC8.map Conn.sid).Nodup ∧ "c1" ≠ "" ∧
    ∃ e, (typingStart connsC8 "s1" "A" "alice" (some "c1") none stEmpty).2 = [e] ∧
      ("s3" ∈ e.targets ↔
        (("conversation:" ++ "c1") ∈ (Conn.mk "s3" "B" ["B", "conversation:c1"]).rooms ∧
         "s3" ≠ "s1")) := by
  refine ⟨by decide, by decide, ?_⟩
  have h := typing_excludes_emitting_socket connsC8 "s1" "A" "alice" "c1" stEmpty
    (by decide) (by decide)
  rcases h.1.2 with ⟨e, he, _, _, hmem⟩
  exact ⟨e, he, hmem ⟨"s3", "B", ["B", "conversation:c1"]⟩ (by decide)⟩

/-- Reader R's connection s1 and user B's connection s2, both subscribed
to conversation c1's room. -/
def connsC3 : List Conn :=
  [⟨"s1", "R", ["R", "conversation:c1"]⟩,
   ⟨"s2", "B", ["B", "conversation:c1"]⟩]

/-- Counterexample to C3: when reader R acknowledges message 0 in
conversation c1, the read-receipt emit targets both s1 and s2 — s1 being
R's own connection, so the reader does receive an echo of their own read
receipt (`io.to`, not `socket.to`). -/
theorem messageRead_echo_counterexample :
    ((messageRead connsC3 "R" (some [0]) (some "c1") none stEmpty).2.map
      Emit.targets) = [["s1", "s2"]] ∧
    connsC3.get? 0 = some ⟨"s1", "R", ["R", "conversation:c1"]⟩ := by
  exact ⟨rfl, rfl⟩

/-- Claim C3 (amended): the read-receipt event {readerId, messageIds,
roomRef} is delivered to every live connection subscribed to the room,
the reader's own connections included — membership in the delivery set
depends only on room subscription, with no exclusion of the reader. -/
theorem messageRead_broadcast_all :
    ∀ (conns : List Conn) (uid : String) (ids : List Nat) (cid : String)
      (st : Store),
      (conns.map Conn.sid).Nodup →
      ids ≠ [] →
      cid ≠ "" →
      ∃ e, (messageRead conns uid (some ids) (some cid) none st).2 = [e] ∧
        e.event = "message:read" ∧
        e.payload = .readRcpt uid ids cid ∧
        ∀ c ∈ conns, c.sid ∈ e.targets ↔ ("conversation:" ++ cid) ∈ c.rooms := by
  intro conns uid ids cid st hns hids hcid
  have hblank : isBlank (some cid) = false := by
    simp [isBlank, hcid]
  rw [messageRead]
  simp only [if_neg hids, hblank, Bool.not_false, if_true, Option.getD_some]
  refine ⟨_, rfl, rfl, rfl, ?_⟩
  intro c hc
  exact mem_ioTo_sids conns hns _ c hc

/-- Witness for the amended C3 at the concrete connection list: the
reader's own socket s1 is in the delivery set. -/
theorem messageRead_broadcast_all_witness :
    (connsC3.map Conn.sid).Nodup ∧ ([0] : List Nat) ≠ [] ∧ "c1" ≠ "" ∧
    ∃ e, (messageRead connsC3 "R" (some [0]) (some "c1") none stEmpty).2 = [e] ∧
      ("s1" ∈ e.targets ↔
        ("conversation:" ++ "c1") ∈ (Conn.mk "s1" "R" ["R", "conversation:c1"]).rooms) := by
  refine ⟨by decide, by decide, by decide, ?_⟩
  rcases messageRead_broadcast_all connsC3 "R" [0] "c1" stEmpty
    (by decide) (by decide) (by decide) with ⟨e, he, _, _, hmem⟩
  exact ⟨e, he, hmem ⟨"s1", "R", ["R", "conversation:c1"]⟩ (by decide)⟩

/-- Counterexample to C4: a message:read event with an empty (or
missing) messageIds array is rejected by validation yet emits no error
event at all, and typing:start with no room reference is likewise
dropped silently — rejected inbound events with zero error events. -/
theorem rejected_silent_drop_counterexample :
    (messageRead connsC3 "R" (some []) (some "c1") none stEmpty).2 = [] ∧
    (messageRead connsC3 "R" none (some "c1") none stEmpty).2 = [] ∧
    (typingStart connsC3 "s1" "R" "rita" none none stEmpty).2 = [] := by
  exact ⟨rfl, rfl, rfl⟩

/-- Claim C4 (amended): rejected message:private events (and invalid
status:change events) emit exactly one error event back to the
originating socket, but a message:read with a missing or empty
messageIds array and a typing event with no room reference are dropped
silently — no event is emitted and the store is untouched. -/
theorem rejected_event_error_emission :
    (∀ (conns : List Conn) (uid cid gid : String) (st : Store),
      messageRead conns uid (some []) (some cid) (some gid) st = (st, []) ∧
      messageRead conns uid none (some cid) (some gid) st = (st, [])) ∧
    (∀ (conns : List Conn) (selfSid uid uname : String) (st : Store),
      typingStart conns selfSid uid uname none none st = (st, []) ∧
      typingStop conns selfSid uid uname none none st = (st, [])) ∧
    (∀ (conns : List Conn) (selfSid uid uname : String)
      (content : Option String) (atts : Option (List String))
      (nf : String → Bool) (st : Store),
      messagePrivate conns selfSid uid uname none content atts nf st =
        (st, [⟨"error", [selfSid],
          .errMsg "Conversation ID and content are required"⟩])) ∧
    (∀ (conns : List Conn) (selfSid uid status : String) (now : Nat)
      (users : String → Option UserRec),
      status ∉ ["online", "offline", "away", "busy"] →
      statusChange conns selfSid uid status now users =
        (users, [⟨"error", [selfSid], .errMsg "Invalid status"⟩])) := by
  refine ⟨?_, ?_, ?_, ?_⟩
  · intro conns uid cid gid st
    exact ⟨rfl, rfl⟩
  · intro conns selfSid uid uname st
    exact ⟨rfl, rfl⟩
  · intro conns selfSid uid uname content atts nf st
    rfl
  · intro conns selfSid uid status now users h
    rw [statusChange, if_pos h]

/-- Reduction of the sendMessage conversation branch under the success
preconditions (room exists, sender is a participant, sender's user
record exists). -/
lemma sendMessage_conv_reduce (st : Store) (uid content cid : String)
    (atts : Option (List String)) (nf : String → Bool) (conv : Conversation)
    (u : UserRec) (hcid : cid ≠ "") (hconv : st.conversations cid = some conv)
    (hmem : uid ∈ conv.participants) (hu : st.users uid = some u) :
    sendMessage uid content (some cid) none atts nf st =
      (let msgId := st.messages.length
       let recipients := conv.participants.filter (· ≠ uid)
       let st2 : Store := { st with
         messages := st.messages ++
           [⟨msgId, uid, content, some cid, none, atts.getD [], [uid], false⟩],
         conversations := setMap st.conversations cid (some { conv with
           lastMessage := some msgId,
           unreadCount := incUnread conv.unreadCount recipients }) }
       let res := notifLoop (fun r =>
           ⟨r, uid, "message", "New Message",
            u.username ++ " sent you a message", msgId⟩) nf recipients st2
       if res.2 then (res.1, .ok msgId)
       else (res.1, .error ⟨"Internal Server Error", 500⟩)) := by
  rw [sendMessage]
  have hb : isBlank (some cid) = false := by simp [isBlank, hcid]
  have hd : decide (cid = "") = false := by simp [hcid]
  simp only [hb, hd, isBlank, Bool.not_false, Bool.not_true, Bool.and_false,
    Bool.false_and, Bool.and_true, Bool.true_and, Bool.or_self, Bool.false_or,
    Bool.or_false, Bool.false_eq_true, if_false, if_true, Option.getD_some,
    hconv, hu, if_pos hmem]

/-- Reduction of the sendMessage group branch under the success
preconditions. -/
lemma sendMessage_group_reduce (st : Store) (uid content gid : String)
    (atts : Option (List String)) (nf : String → Bool) (g : Group)
    (u : UserRec) (hgid : gid ≠ "") (hg : st.groups gid = some g)
    (hmem : uid ∈ g.members) (hu : st.users uid = some u) :
    sendMessage uid content none (some gid) atts nf st =
      (let msgId := st.messages.length
       let recipients := g.members.filter (· ≠ uid)
       let st2 : Store := { st with
         messages := st.messages ++
           [⟨msgId, uid, content, none, some gid, atts.getD [], [uid], false⟩],
         groups := setMap st.groups gid (some { g with
           lastMessage := some msgId,
           unreadCount := incUnread g.unreadCount recipients }) }
       let res := notifLoop (fun r =>
           ⟨r, uid, "message", "New Message in " ++ g.name,
            u.username ++ " sent a message in " ++ g.name, msgId⟩) nf recipients st2
       if res.2 then (res.1, .ok msgId)
       else (res.1, .error ⟨"Internal Server Error", 500⟩)) := by
  rw [sendMessage]
  have hb : isBlank (some gid) = false := by simp [isBlank, hgid]
  have hd : decide (gid = "") = false := by simp [hgid]
  simp only [hb, hd, isBlank, Bool.not_false, Bool.not_true, Bool.and_false,
    Bool.false_and, Bool.and_true, Bool.true_and, Bool.or_self, Bool.false_or,
    Bool.or_false, Bool.false_eq_true, if_false, if_true, Option.getD_some,
    hg, hu, if_pos hmem]

/-- Witness for the amended C4: an invalid status value is rejected with
exactly one error event. -/
theorem rejected_event_error_emission_witness :
    "bogus" ∉ ["online", "offline", "away", "busy"] ∧
    statusChange connsC3 "s1" "R" "bogus" 7 usersW =
      (usersW, [⟨"error", ["s1"], .errMsg "Invalid status"⟩]) := by
  exact ⟨by decide,
    rejected_event_error_emission.2.2.2 connsC3 "s1" "R" "bogus" 7 usersW (by decide)⟩

/-- Filter membership over participants: `r` is a recipient iff a
participant other than the sender. -/
lemma mem_recipients (l : List String) (uid r : String) :
    r ∈ l.filter (· ≠ uid) ↔ (r ∈ l ∧ r ≠ uid) := by
  simp [List.mem_filter]

/-- Claim C1: a send by a room member leaves the room's lastMessage
pointing at the newly created message, increments unreadCount by exactly
one for every member other than the sender, and leaves the sender's own
unreadCount entry untouched — for conversations and for groups. -/
theorem sendMessage_unread_lastMessage :
    (∀ (st : Store) (uid content cid : String) (atts : Option (List String))
       (nf : String → Bool) (conv : Conversation) (u : UserRec),
       cid ≠ "" →
       st.conversations cid = some conv →
       uid ∈ conv.participants →
       conv.participants.Nodup →
       st.users uid = some u →
       (∀ r, nf r = false) →
       (sendMessage uid content (some cid) none atts nf st).2 =
         .ok st.messages.length ∧
       ∃ conv',
         ((sendMessage uid content (some cid) none atts nf st).1).conversations cid =
           some conv' ∧
         conv'.lastMessage = some st.messages.length ∧
         (∀ r ∈ conv.participants, r ≠ uid →
           (conv'.unreadCount r).getD 0 = (conv.unreadCount r).getD 0 + 1) ∧
         conv'.unreadCount uid = conv.unreadCount uid) ∧
    (∀ (st : Store) (uid content gid : String) (atts : Option (List String))
       (nf : String → Bool) (g : Group) (u : UserRec),
       gid ≠ "" →
       st.groups gid = some g →
       uid ∈ g.members →
       g.members.Nodup →
       st.users uid = some u →
       (∀ r, nf r = false) →
       (sendMessage uid content none (some gid) atts nf st).2 =
         .ok st.messages.length ∧
       ∃ g',
         ((sendMessage uid content none (some gid) atts nf st).1).groups gid =
           some g' ∧
         g'.lastMessage = some st.messages.length ∧
         (∀ r ∈ g.members, r ≠ uid →
           (g'.unreadCount r).getD 0 = (g.unreadCount r).getD 0 + 1) ∧
         g'.unreadCount uid = g.unreadCount uid) := by
  constructor
  · intro st uid content cid atts nf conv u hcid hconv hmem hnd hu hnf
    rw [sendMessage_conv_reduce st uid content cid atts nf conv u hcid hconv hmem hu]
    simp only []
    rw [notifLoop_eq _ nf _ _ (fun r _ => hnf r)]
    have hrecnd : (conv.participants.filter (· ≠ uid)).Nodup := hnd.filter _
    refine ⟨rfl, ?_⟩
    refine ⟨{ conv with
      lastMessage := some st.messages.length,
      unreadCount := incUnread conv.unreadCount
        (conv.participants.filter (· ≠ uid)) }, ?_, rfl, ?_, ?_⟩
    · simp [setMap]
    · intro r hr hruid
      have hmemf : r ∈ conv.participants.filter (· ≠ uid) :=
        (mem_recipients _ _ _).mpr ⟨hr, hruid⟩
      show (incUnread conv.unreadCount
        (conv.participants.filter (· ≠ uid)) r).getD 0 =
        (conv.unreadCount r).getD 0 + 1
      rw [incUnread_apply _ _ hrecnd r, if_pos hmemf, Option.getD_some]
    · have hnmem : uid ∉ conv.participants.filter (· ≠ uid) := by
        intro hmemf
        exact ((mem_recipients _ _ _).mp hmemf).2 rfl
      show incUnread conv.unreadCount
        (conv.participants.filter (· ≠ uid)) uid = conv.unreadCount uid
      rw [incUnread_apply _ _ hrecnd uid, if_neg hnmem]
  · intro st uid content gid atts nf g u hgid hg hmem hnd hu hnf
    rw [sendMessage_group_reduce st uid content gid atts nf g u hgid hg hmem hu]
    simp only []
    rw [notifLoop_eq _ nf _ _ (fun r _ => hnf r)]
    have hrecnd : (g.members.filter (· ≠ uid)).Nodup := hnd.filter _
    refine ⟨rfl, ?_⟩
    refine ⟨{ g with
      lastMessage := some st.messages.length,
      unreadCount := incUnread g.unreadCount
        (g.members.filter (· ≠ uid)) }, ?_, rfl, ?_, ?_⟩
    · simp [setMap]
    · intro r hr hruid
      have hmemf : r ∈ g.members.filter (· ≠ uid) :=
        (mem_recipients _ _ _).mpr ⟨hr, hruid⟩
      show (incUnread g.unreadCount
        (g.members.filter (· ≠ uid)) r).getD 0 =
        (g.unreadCount r).getD 0 + 1
      rw [incUnread_apply _ _ hrecnd r, if_pos hmemf, Option.getD_some]
    · have hnmem : uid ∉ g.members.filter (· ≠ uid) := by
        intro hmemf
        exact ((mem_recipients _ _ _).mp hmemf).2 rfl
      show incUnread g.unreadCount
        (g.members.filter (· ≠ uid)) uid = g.unreadCount uid
      rw [incUnread_apply _ _ hrecnd uid, if_neg hnmem]

/-- Conversation c1 between users A and B with no unread entries. -/
def convC1 : Conversation := ⟨["A", "B"], none, fun _ => none, true⟩

/-- Store holding conversation c1 and user A's record. -/
def stC1 : Store :=
  ⟨usersW, fun x => if x = "c1" then some convC1 else none, fun _ => none, [], []⟩

/-- Witness for C1: A sends "hi" into conversation c1 with B. -/
theorem sendMessage_unread_lastMessage_witness :
    "A" ∈ convC1.participants ∧ convC1.participants.Nodup ∧
    ((sendMessage "A" "hi" (some "c1") none none (fun _ => false) stC1).2 =
       .ok stC1.messages.length ∧
     ∃ conv',
       ((sendMessage "A" "hi" (some "c1") none none
           (fun _ => false) stC1).1).conversations "c1" = some conv' ∧
       conv'.lastMessage = some stC1.messages.length ∧
       (∀ r ∈ convC1.participants, r ≠ "A" →
         (conv'.unreadCount r).getD 0 = (convC1.unreadCount r).getD 0 + 1) ∧
       conv'.unreadCount "A" = convC1.unreadCount "A") :=
  ⟨by decide, by decide,
   sendMessage_unread_lastMessage.1 stC1 "A" "hi" "c1" none (fun _ => false)
     convC1 ⟨"alice", "online", 0, ["B"]⟩ (by decide) rfl (by decide) (by decide)
     rfl (fun r => rfl)⟩

/-- Counterexample to C5: B's notification creation fails after A's
message into conversation c1 was persisted; the whole send surfaces a
500 error to the sender (the message stays persisted, no notification
exists) instead of succeeding. -/
theorem notifFailure_fails_send_counterexample :
    (sendMessage "A" "hi" (some "c1") none none (· == "B") stC1).2 =
      .error ⟨"Internal Server Error", 500⟩ ∧
    ((sendMessage "A" "hi" (some "c1") none none (· == "B") stC1).1).messages.length = 1 ∧
    ((sendMessage "A" "hi" (some "c1") none none (· == "B") stC1).1).notifications = [] := by
  refine ⟨rfl, rfl, rfl⟩

/-- Claim C5 (amended): when a recipient's durable Notification creation
fails after the message has been persisted, the send operation fails —
the error propagates to the sender as an error response — while the
already-persisted message and the room update remain in place. -/
theorem sendMessage_notifFailure_surfaces :
    ∀ (st : Store) (uid content cid : String) (atts : Option (List String))
      (nf : String → Bool) (conv : Conversation) (u : UserRec),
      cid ≠ "" →
      st.conversations cid = some conv →
      uid ∈ conv.participants →
      st.users uid = some u →
      (∃ r ∈ conv.participants.filter (· ≠ uid), nf r = true) →
      (sendMessage uid content (some cid) none atts nf st).2 =
        .error ⟨"Internal Server Error", 500⟩ ∧
      ((sendMessage uid content (some cid) none atts nf st).1).messages =
        st.messages ++ [⟨st.messages.length, uid, content, some cid, none,
          atts.getD [], [uid], false⟩] ∧
      ∃ conv',
        ((sendMessage uid content (some cid) none atts nf st).1).conversations cid =
          some conv' ∧
        conv'.lastMessage = some st.messages.length := by
  intro st uid content cid atts nf conv u hcid hconv hmem hu hfail
  rw [sendMessage_conv_reduce st uid content cid atts nf conv u hcid hconv hmem hu]
  simp only []
  rw [notifLoop_aborts _ nf _ _ hfail]
  simp only [Bool.false_eq_true, if_false]
  have hframe := notifLoop_frame (fun r =>
      ⟨r, uid, "message", "New Message",
       u.username ++ " sent you a message", st.messages.length⟩) nf
    (conv.participants.filter (· ≠ uid))
    { st with
      messages := st.messages ++
        [⟨st.messages.length, uid, content, some cid, none, atts.getD [], [uid], false⟩],
      conversations := setMap st.conversations cid (some { conv with
        lastMessage := some st.messages.length,
        unreadCount := incUnread conv.unreadCount
          (conv.participants.filter (· ≠ uid)) }) }
  refine ⟨by trivial, ?_, ?_⟩
  · exact hframe.1
  · refine ⟨{ conv with
      lastMessage := some st.messages.length,
      unreadCount := incUnread conv.unreadCount
        (conv.participants.filter (· ≠ uid)) }, ?_, by trivial⟩
    rw [hframe.2.1]
    simp [setMap]

/-- Witness for the amended C5 at the concrete failing store. -/
theorem sendMessage_notifFailure_surfaces_witness :
    (∃ r ∈ convC1.participants.filter (· ≠ "A"), (r == "B") = true) ∧
    (sendMessage "A" "hi" (some "c1") none none (· == "B") stC1).2 =
      .error ⟨"Internal Server Error", 500⟩ := by
  refine ⟨⟨"B", by decide, by decide⟩, ?_⟩
  exact (sendMessage_notifFailure_surfaces stC1 "A" "hi" "c1" none (· == "B")
    convC1 ⟨"alice", "online", 0, ["B"]⟩ (by decide) rfl (by decide) rfl
    ⟨"B", by decide, by decide⟩).1

/-- Group g1 whose only member (and admin and creator) is A; its
lastMessage currently points at message 0. -/
def gC6 : Group := ⟨"grp", "A", ["A"], ["A"], some 0, fun _ => none, true⟩

/-- Existing message 0 in group g1. -/
def msg0 : Msg := ⟨0, "A", "old", none, some "g1", [], ["A"], false⟩

/-- Store holding group g1 (sole member A) and one existing message. -/
def stC6 : Store :=
  ⟨usersW, fun _ => none, fun x => if x = "g1" then some gC6 else none, [msg0], []⟩

/-- Counterexample to C6: with an empty recipient set the send succeeds,
but step 2 is not a no-op — the group's lastMessage moves from message 0
to the newly created message 1. -/
theorem send_soloRoom_counterexample :
    (sendMessage "A" "hi" none (some "g1") none (fun _ => false) stC6).2 = .ok 1 ∧
    (stC6.groups "g1").map Group.lastMessage = some (some 0) ∧
    ((sendMessage "A" "hi" none (some "g1") none
        (fun _ => false) stC6).1.groups "g1").map Group.lastMessage =
      some (some 1) := by
  refine ⟨rfl, rfl, rfl⟩

/-- Claim C6 (amended): sending into a group whose only member is the
sender succeeds and returns the created message; the unread counters and
the notification collection are untouched (steps with recipients are
no-ops), but the room's lastMessage is still updated to the new
message. -/
theorem sendMessage_soloMember :
    ∀ (st : Store) (uid content gid : String) (atts : Option (List String))
      (nf : String → Bool) (g : Group) (u : UserRec),
      gid ≠ "" →
      st.groups gid = some g →
      g.members = [uid] →
      st.users uid = some u →
      (sendMessage uid content none (some gid) atts nf st).2 =
        .ok st.messages.length ∧
      ((sendMessage uid content none (some gid) atts nf st).1).notifications =
        st.notifications ∧
      ((sendMessage uid content none (some gid) atts nf st).1).messages =
        st.messages ++ [⟨st.messages.length, uid, content, none, some gid,
          atts.getD [], [uid], false⟩] ∧
      ∃ g',
        ((sendMessage uid content none (some gid) atts nf st).1).groups gid =
          some g' ∧
        g'.unreadCount = g.unreadCount ∧
        g'.members = g.members ∧
        g'.lastMessage = some st.messages.length := by
  intro st uid content gid atts nf g u hgid hg hm hu
  have hmem : uid ∈ g.members := by rw [hm]; exact List.mem_singleton.mpr rfl
  rw [sendMessage_group_reduce st uid content gid atts nf g u hgid hg hmem hu]
  have hrec : g.members.filter (· ≠ uid) = [] := by
    rw [hm]; simp
  rw [hrec]
  simp only [notifLoop, incUnread, if_true]
  refine ⟨trivial, trivial, trivial,
    ⟨{ g with
       lastMessage := some st.messages.length,
       unreadCount := g.unreadCount }, ?_, rfl, rfl, rfl⟩⟩
  simp [setMap]

/-- Witness for the amended C6 at the concrete single-member group. -/
theorem sendMessage_soloMember_witness :
    gC6.members = ["A"] ∧
    (sendMessage "A" "hi" none (some "g1") none (fun _ => false) stC6).2 =
      .ok stC6.messages.length ∧
    ((sendMessage "A" "hi" none (some "g1") none
        (fun _ => false) stC6).1).notifications = stC6.notifications := by
  have h := sendMessage_soloMember stC6 "A" "hi" "g1" none (fun _ => false)
    gC6 ⟨"alice", "online", 0, ["B"]⟩ (by decide) rfl (by decide) rfl
  exact ⟨by decide, h.1, h.2.1⟩

/-- A group whose sole admin A is not the creator: C created it, promoted
A, and left while another admin existed (a state reachable through
createGroup, makeAdmin and leaveGroup). -/
def gC7 : Group := ⟨"grp", "C", ["A", "B"], ["A"], none, fun _ => none, true⟩

/-- Store holding group g1 in the state above. -/
def stC7 : Store :=
  ⟨fun _ => none, fun _ => none, fun x => if x = "g1" then some gC7 else none, [], []⟩

/-- Counterexample to C7: in a group with admins = {A} and members =
{A, B} whose creator is C (no longer a member), A's leave succeeds but B
is not promoted — the group stays active with members = {B}, creator C
and no admin at all, breaking the at-least-one-admin invariant. -/
theorem leaveGroup_noAdmin_counterexample :
    (leaveGroup "A" "g1" stC7).2 = .ok () ∧
    ((leaveGroup "A" "g1" stC7).1.groups "g1").map Group.admins = some [] ∧
    ((leaveGroup "A" "g1" stC7).1.groups "g1").map Group.members = some ["B"] ∧
    ((leaveGroup "A" "g1" stC7).1.groups "g1").map Group.isActive = some true ∧
    ((leaveGroup "A" "g1" stC7).1.groups "g1").map Group.creator = some "C" := by
  refine ⟨rfl, rfl, rfl, rfl, rfl⟩

/-- Claim C7 (amended): when the leaver A is additionally the group's
creator, leaving a group with admins = {A} and members = {A, B} promotes
B to admin and to creator, removes A from members and admins, and the
group stays active with at least one admin; when A is not the creator,
the promotion branch is skipped and the group is left without admins. -/
theorem leaveGroup_creator_promotes :
    ∀ (st : Store) (gid A B : String) (g : Group),
      st.groups gid = some g →
      g.creator = A →
      g.admins = [A] →
      g.members = [A, B] →
      B ≠ A →
      g.isActive = true →
      (leaveGroup A gid st).2 = .ok () ∧
      ∃ g', ((leaveGroup A gid st).1).groups gid = some g' ∧
        g'.admins = [B] ∧ g'.creator = B ∧ g'.members = [B] ∧
        g'.isActive = true := by
  intro st gid A B g hg hcr hadm hmem hne hact
  have hAmem : A ∈ g.members := by
    rw [hmem]; exact List.mem_cons_self _ _
  have hdoc : (leaveGroupDoc A g).creator = B ∧ (leaveGroupDoc A g).admins = [B] ∧
      (leaveGroupDoc A g).members = [B] ∧
      (leaveGroupDoc A g).isActive = g.isActive := by
    unfold leaveGroupDoc
    rw [hcr, hadm, hmem]
    simp [hne]
  rw [leaveGroup]
  simp only [hg]
  rw [if_pos hAmem]
  refine ⟨rfl, leaveGroupDoc A g, by simp [setMap], hdoc.2.1, hdoc.1,
    hdoc.2.2.1, by rw [hdoc.2.2.2, hact]⟩

/-- A's own group used to instantiate the creator-leave theorem. -/
def gC7w : Group := ⟨"grp", "A", ["A", "B"], ["A"], none, fun _ => none, true⟩

/-- Store holding group g2 whose creator and sole admin is A. -/
def stC7w : Store :=
  ⟨fun _ => none, fun _ => none, fun x => if x = "g2" then some gC7w else none, [], []⟩

/-- Witness for the amended C7: creator A leaves; B is promoted. -/
theorem leaveGroup_creator_promotes_witness :
    gC7w.creator = "A" ∧ gC7w.admins = ["A"] ∧ gC7w.members = ["A", "B"] ∧
    ((leaveGroup "A" "g2" stC7w).2 = .ok () ∧
     ∃ g', ((leaveGroup "A" "g2" stC7w).1).groups "g2" = some g' ∧
       g'.admins = ["B"] ∧ g'.creator = "B" ∧ g'.members = ["B"] ∧
       g'.isActive = true) :=
  ⟨rfl, rfl, rfl,
   leaveGroup_creator_promotes stC7w "g2" "A" "B" gC7w rfl rfl rfl rfl
     (by decide) rfl⟩

/-- Adding a socket id to a set never yields the empty set. -/
lemma addSock_ne_nil (s : String) (l : List String) : addSock s l ≠ [] := by
  unfold addSock
  split
  · exact List.ne_nil_of_mem (by assumption)
  · simp

/-- Replaying events against the map tracks, per user, exactly the
ground-truth live-socket fold: the key is absent iff the user's live set
is empty, and otherwise stores exactly that set. -/
lemma applyOps_char (ops : List SockOp) :
    ∀ (m : UserSockets) (f : String → List String),
      (∀ u, m u = if f u = [] then none else some (f u)) →
      ∀ u, applyOps ops m u =
        if liveSocketsFrom ops f u = [] then none
        else some (liveSocketsFrom ops f u) := by
  induction ops with
  | nil =>
    intro m f h u
    exact h u
  | cons op rest ih =>
    intro m f h u
    cases op with
    | connect uu ss =>
      rw [applyOps, liveSocketsFrom]
      apply ih
      intro v
      by_cases hv : v = uu
      · subst hv
        have hget : (m v).getD [] = f v := by
          rw [h v]
          split
          · simp [*]
          · simp
        show setMap m v (some (addSock ss ((m v).getD []))) v = _
        rw [setMap, if_pos rfl, hget]
        rw [liveStep, if_pos rfl]
        rw [if_neg (addSock_ne_nil ss (f v))]
      · show setMap m uu (some (addSock ss ((m uu).getD []))) v = _
        rw [setMap, if_neg hv, liveStep, if_neg hv]
        exact h v
    | disconnect uu ss =>
      rw [applyOps, liveSocketsFrom]
      apply ih
      intro v
      rw [disconnectSock]
      cases hm : m uu with
      | none =>
        have hf : f uu = [] := by
          by_contra hne
          rw [h uu, if_neg hne] at hm
          exact Option.some_ne_none _ hm
        by_cases hv : v = uu
        · subst hv
          rw [liveStep, if_pos rfl, hf]
          simp [hm]
        · rw [liveStep, if_neg hv]
          exact h v
      | some l =>
        have hf : f uu ≠ [] ∧ l = f uu := by
          by_cases hne : f uu = []
          · rw [h uu, if_pos hne] at hm
            exact absurd hm (by simp)
          · rw [h uu, if_neg hne] at hm
            exact ⟨hne, (Option.some_inj.mp hm).symm⟩
        by_cases hv : v = uu
        · subst hv
          rw [liveStep, if_pos rfl, ← hf.2]
          by_cases he : l.erase ss = []
          · simp only [if_pos he]
            show setMap m v none v = none
            rw [setMap, if_pos rfl]
          · simp only [if_neg he]
            show setMap m v (some (l.erase ss)) v = some (l.erase ss)
            rw [setMap, if_pos rfl]
        · by_cases he : l.erase ss = []
          · simp only [if_pos he]
            show setMap m uu none v = _
            rw [setMap, if_neg hv, liveStep, if_neg hv]
            exact h v
          · simp only [if_neg he]
            show setMap m uu (some (l.erase ss)) v = _
            rw [setMap, if_neg hv, liveStep, if_neg hv]
            exact h v

/-- The map after any event sequence, characterized per user. -/
lemma applyOps_empty_char (ops : List SockOp) (u : String) :
    applyOps ops emptySockets u =
      if liveSockets ops u = [] then none else some (liveSockets ops u) :=
  applyOps_char ops emptySockets (fun _ => []) (fun _ => by simp [emptySockets]) u

/-- Claim C10: starting from the empty map, after any sequence of
connection admissions and disconnects (i) every stored socket-id set is
non-empty, (ii) a user id is a key exactly when that user has at least
one live socket, (iii) the disconnect branch that performs the durable
offline write and the offline broadcast fires exactly on the disconnect
that empties the user's socket set, and (iv) on any other disconnect the
user table is untouched and nothing is broadcast, while on the emptying
disconnect the user's status is durably set to offline and user:status
is emitted to each friend's room. -/
theorem userSockets_invariant :
    ∀ (ops : List SockOp),
      (∀ u l, applyOps ops emptySockets u = some l → l ≠ []) ∧
      (∀ u, (applyOps ops emptySockets u).isSome ↔ liveSockets ops u ≠ []) ∧
      (∀ u s, (disconnectSock u s (applyOps ops emptySockets)).2 = true ↔
        (liveSockets ops u ≠ [] ∧ (liveSockets ops u).erase s = [])) ∧
      (∀ (u s : String) (conns : List Conn) (users : String → Option UserRec)
         (friends : List String) (now : Nat),
        ((liveSockets ops u).erase s ≠ [] ∨ liveSockets ops u = [] →
          disconnectHandler conns u s now (applyOps ops emptySockets) users friends =
            ((disconnectSock u s (applyOps ops emptySockets)).1, users, [])) ∧
        (∀ urec, liveSockets ops u ≠ [] → (liveSockets ops u).erase s = [] →
          users u = some urec →
          disconnectHandler conns u s now (applyOps ops emptySockets) users friends =
            ((disconnectSock u s (applyOps ops emptySockets)).1,
             setMap users u (some { urec with status := "offline", lastSeen := now }),
             friends.map (fun f =>
               ⟨"user:status", (ioTo conns f).map (·.sid),
                .userStatus u "offline" now⟩)))) := by
  intro ops
  have hch := applyOps_empty_char ops
  have hflag : ∀ u s, (disconnectSock u s (applyOps ops emptySockets)).2 = true ↔
      (liveSockets ops u ≠ [] ∧ (liveSockets ops u).erase s = []) := by
    intro u s
    by_cases hl : liveSockets ops u = []
    · have hm : applyOps ops emptySockets u = none := by rw [hch u, if_pos hl]
      rw [disconnectSock, hm]
      simp [hl]
    · have hm : applyOps ops emptySockets u = some (liveSockets ops u) := by
        rw [hch u, if_neg hl]
      rw [disconnectSock, hm]
      by_cases he : (liveSockets ops u).erase s = []
      · simp [he, hl]
      · simp [he, hl]
  refine ⟨?_, ?_, hflag, ?_⟩
  · intro u l h
    rw [hch u] at h
    by_cases hl : liveSockets ops u = []
    · rw [if_pos hl] at h
      exact absurd h (by simp)
    · rw [if_neg hl] at h
      intro hnil
      rw [hnil] at h
      exact hl (Option.some_inj.mp h)
  · intro u
    rw [hch u]
    by_cases hl : liveSockets ops u = []
    · simp [hl]
    · simp [hl]
  · intro u s conns users friends now
    constructor
    · intro hyp
      have hf : (disconnectSock u s (applyOps ops emptySockets)).2 = false := by
        cases hfl : (disconnectSock u s (applyOps ops emptySockets)).2 with
        | false => rfl
        | true =>
          rcases (hflag u s).mp hfl with ⟨hne, he⟩
          rcases hyp with hyp | hyp
          · exact absurd he hyp
          · exact absurd hyp hne
      rw [disconnectHandler, hf]
      simp
    · intro urec hne he husers
      have hf : (disconnectSock u s (applyOps ops emptySockets)).2 = true :=
        (hflag u s).mpr ⟨hne, he⟩
      rw [disconnectHandler, hf]
      simp only [if_true, husers]

/-- Event trace instantiating C10: user A connects twice, then socket s1
disconnects. -/
def opsW : List SockOp :=
  [.connect "A" "s1", .connect "A" "s2", .disconnect "A" "s1"]

/-- Witness for C10: after the trace, A's stored set is exactly the live
set {s2}; disconnecting s2 — the emptying disconnect — durably marks A
offline and broadcasts user:status to A's friends. -/
theorem userSockets_invariant_witness :
    (applyOps opsW emptySockets "A" = some ["s2"] → (["s2"] : List String) ≠ []) ∧
    ((applyOps opsW emptySockets "A").isSome ↔ liveSockets opsW "A" ≠ []) ∧
    (liveSockets opsW "A" ≠ [] ∧ (liveSockets opsW "A").erase "s2" = [] ∧
     usersW "A" = some ⟨"alice", "online", 0, ["B"]⟩ ∧
     disconnectHandler [] "A" "s2" 9 (applyOps opsW emptySockets) usersW ["B"] =
       ((disconnectSock "A" "s2" (applyOps opsW emptySockets)).1,
        setMap usersW "A" (some ⟨"alice", "offline", 9, ["B"]⟩),
        [⟨"user:status", [], .userStatus "A" "offline" 9⟩])) := by
  refine ⟨(userSockets_invariant opsW).1 "A" ["s2"],
    (userSockets_invariant opsW).2.1 "A",
    by decide, by decide, rfl, ?_⟩
  exact ((userSockets_invariant opsW).2.2.2 "A" "s2" [] usersW ["B"] 9).2
    ⟨"alice", "online", 0, ["B"]⟩ (by decide) (by decide) rfl

end ChatApp
